import Mathlib

/-!
Verification of the MindMate-AI workflow orchestration core
(`src/MindMateAI/Workflow/workflow.py`, class `GraphBuilder`).

The shared state (`MentalHealthState`) is embedded as a record; each graph
node is embedded as a function of the state, parameterised by a
`Capability` describing the external agent calls (`agent.invoke`) and the
outcome of `json.loads` on their raw text output.  `json.loads` is external
library code, so it is modelled by its observable outcome at each call
site: it either raises `JSONDecodeError` (`decodeError`), succeeds with a
non-dict value on which the subsequent `.get` attribute access raises
(`nonObject`), or succeeds with a dict from which the node extracts its
fields with the defaults written in the source (`object`).
-/

namespace MindMate

/-- One entry of the `messages` trace list: `{"role": ..., "content": ...}`. -/
structure Msg where
  role : String
  content : String
deriving DecidableEq

/-- The shared workflow state, from `Agents/mental_health_state.py`
(`MentalHealthState`).  `retry_count` is a Python int that starts at 0 and
is only ever incremented, so it is embedded as `Nat`. -/
structure MentalHealthState where
  user_query : String
  rewritten_query : String
  emotion : String
  cbt_response : String
  schedule_recommendation : String
  ethical_check : Bool
  ethical_feedback : String
  final_output : String
  messages : List Msg
  retry_count : Nat
  remaining_steps : Nat
deriving DecidableEq

/-- Outcome of `json.loads` applied to a raw capability output, observed at
a node call site: `decodeError` is a raised `json.JSONDecodeError` (caught
by the node), `nonObject` is a successful parse to a non-dict value (the
following `.get` raises `AttributeError`, which the node does not catch),
`object` is a successful parse to a dict, with the fields the node extracts
(defaults applied as in the source). -/
inductive ParseOutcome (α : Type) where
  | decodeError : ParseOutcome α
  | nonObject : ParseOutcome α
  | object : α → ParseOutcome α
deriving DecidableEq

/-- One behaviour of the external capabilities: for each stage, the raw
text produced by `agent.invoke(state)` (`result["messages"][-1].content`),
and, for the two stages that parse JSON, the outcome of `json.loads` on a
given raw text.  For the emotion stage a successful dict parse yields
`analysis.get("emotion", "neutral")`; for the ethical stage it yields
`(analysis.get("ethical", True), analysis.get("feedback", ""))`. -/
structure Capability where
  rewriteOut : MentalHealthState → String
  emotionOut : MentalHealthState → String
  cbtOut : MentalHealthState → String
  scheduleOut : MentalHealthState → String
  ethicalOut : MentalHealthState → String
  writerOut : MentalHealthState → String
  emotionParse : String → ParseOutcome String
  ethicalParse : String → ParseOutcome (Bool × String)

/- String literals of the source, named once and reused. -/

def roleRewrite : String := "rewrite"

def roleEmotionAnalyst : String := "emotion_analyst"

def roleCbtAgent : String := "cbt_agent"

def roleResourceSchedule : String := "resource_schedule"

def roleEthicalGuardian : String := "ethical_guardian"

def roleWriter : String := "writer"

def kwAnxiety : String := "anxiety"

def kwDepression : String := "depression"

def kwSad : String := "sad"

def kwAnger : String := "anger"

def kwAngry : String := "angry"

def kwFear : String := "fear"

def kwScared : String := "scared"

def kwJoy : String := "joy"

def kwHappy : String := "happy"

def emoAnxiety : String := "anxiety"

def emoSadness : String := "sadness"

def emoAnger : String := "anger"

def emoFear : String := "fear"

def emoJoy : String := "joy"

def emoNeutral : String := "neutral"

def kwHarmful : String := "harmful"

def kwInappropriate : String := "inappropriate"

def kwUnethical : String := "unethical"

def kwDangerous : String := "dangerous"

def fbConcerns : String := "Ethical concerns identified in response"

def fbCompleted : String := "Ethical review completed"

/-- The fixed apology-and-referral text of `handle_max_retries`. -/
def fallbackMessage : String :=
  "I apologize, but I\x27m unable to provide a suitable response at this time. Please consider speaking with a qualified mental health professional for personalized support."

/-- The uncaught Python exception raised by `.get` on a non-dict parse. -/
def attrError : String := "AttributeError"

/-- `charsHasPrefix p l` is true when the character list `p` is an initial
segment of `l` (the primitive under Python substring containment). -/
def charsHasPrefix : List Char → List Char → Bool
  | [], _ => true
  | _ :: _, [] => false
  | c :: cs, d :: ds => c == d && charsHasPrefix cs ds

/-- `strContainsAux p l` is true when `p` occurs as a contiguous run
inside `l`. -/
def strContainsAux (p : List Char) : List Char → Bool
  | [] => charsHasPrefix p []
  | c :: cs => charsHasPrefix p (c :: cs) || strContainsAux p cs

/-- Python `str.lower` on one character, restricted to ASCII (every raw
text and marker involved in the heuristics is ASCII). -/
def lowerChar (c : Char) : Char :=
  if 65 ≤ c.toNat && c.toNat ≤ 90 then Char.ofNat (c.toNat + 32) else c

/-- The character list of `s.lower()`. -/
def lowerData (s : String) : List Char :=
  s.data.map lowerChar

/-- Python `pat in s.lower()`: contiguous substring containment in the
lower-cased text. -/
def containsLower (s pat : String) : Bool :=
  strContainsAux pat.data (lowerData s)

/-- The keyword heuristic of `emotion_analysis_node` run on the
`json.JSONDecodeError` branch (workflow.py lines 48-60): lower-case the raw
text and take the first matching marker in the fixed order of the source,
defaulting to neutral. -/
def emotionFallback (analysis_content : String) : String :=
  if containsLower analysis_content kwAnxiety then emoAnxiety
  else if containsLower analysis_content kwDepression || containsLower analysis_content kwSad then emoSadness
  else if containsLower analysis_content kwAnger || containsLower analysis_content kwAngry then emoAnger
  else if containsLower analysis_content kwFear || containsLower analysis_content kwScared then emoFear
  else if containsLower analysis_content kwJoy || containsLower analysis_content kwHappy then emoJoy
  else emoNeutral

/-- The keyword heuristic of `ethical_guardian_node` run on the
`json.JSONDecodeError` branch (workflow.py lines 110-116): assume ethical
unless one of four concern words occurs in the lower-cased raw text.
Returns `(ethical_check, ethical_feedback)`. -/
def ethicalFallback (ethical_content : String) : Bool × String :=
  if containsLower ethical_content kwHarmful || containsLower ethical_content kwInappropriate || containsLower ethical_content kwUnethical || containsLower ethical_content kwDangerous then
    (false, fbConcerns)
  else
    (true, fbCompleted)

/-- `GraphBuilder.rewrite_node`: invoke the rewrite agent, store its output
in `rewritten_query`, append one trace entry. -/
def rewrite_node (cap : Capability) (state : MentalHealthState) : MentalHealthState :=
  { state with
    rewritten_query := cap.rewriteOut state,
    messages := state.messages ++ [⟨roleRewrite, cap.rewriteOut state⟩] }

/-- `GraphBuilder.emotion_analysis_node`: invoke the emotion agent, try
`json.loads` on its output; on a dict use the extracted `emotion` field, on
`JSONDecodeError` use the keyword heuristic, on a non-dict parse the `.get`
attribute access raises (uncaught). -/
def emotion_analysis_node (cap : Capability) (state : MentalHealthState) :
    Except String MentalHealthState :=
  match cap.emotionParse (cap.emotionOut state) with
  | ParseOutcome.object emotion =>
      Except.ok { state with
        emotion := emotion,
        messages := state.messages ++ [⟨roleEmotionAnalyst, cap.emotionOut state⟩] }
  | ParseOutcome.nonObject => Except.error attrError
  | ParseOutcome.decodeError =>
      Except.ok { state with
        emotion := emotionFallback (cap.emotionOut state),
        messages := state.messages ++ [⟨roleEmotionAnalyst, cap.emotionOut state⟩] }

/-- `GraphBuilder.cbt_agent_node`: invoke the CBT agent, store its output
in `cbt_response`, append one trace entry. -/
def cbt_agent_node (cap : Capability) (state : MentalHealthState) : MentalHealthState :=
  { state with
    cbt_response := cap.cbtOut state,
    messages := state.messages ++ [⟨roleCbtAgent, cap.cbtOut state⟩] }

/-- `GraphBuilder.resource_schedule_node`: invoke the schedule agent, store
its output in `schedule_recommendation`, append one trace entry. -/
def resource_schedule_node (cap : Capability) (state : MentalHealthState) : MentalHealthState :=
  { state with
    schedule_recommendation := cap.scheduleOut state,
    messages := state.messages ++ [⟨roleResourceSchedule, cap.scheduleOut state⟩] }

/-- `GraphBuilder.ethical_guardian_node`: invoke the ethical agent, try
`json.loads`; on a dict use the extracted `ethical`/`feedback` fields, on
`JSONDecodeError` use the keyword heuristic, on a non-dict parse the `.get`
attribute access raises (uncaught). -/
def ethical_guardian_node (cap : Capability) (state : MentalHealthState) :
    Except String MentalHealthState :=
  match cap.ethicalParse (cap.ethicalOut state) with
  | ParseOutcome.object a =>
      Except.ok { state with
        ethical_check := a.1,
        ethical_feedback := a.2,
        messages := state.messages ++ [⟨roleEthicalGuardian, cap.ethicalOut state⟩] }
  | ParseOutcome.nonObject => Except.error attrError
  | ParseOutcome.decodeError =>
      Except.ok { state with
        ethical_check := (ethicalFallback (cap.ethicalOut state)).1,
        ethical_feedback := (ethicalFallback (cap.ethicalOut state)).2,
        messages := state.messages ++ [⟨roleEthicalGuardian, cap.ethicalOut state⟩] }

/-- `GraphBuilder.writer_agent_node`: invoke the writer agent, store its
output in `final_output`, append one trace entry. -/
def writer_agent_node (cap : Capability) (state : MentalHealthState) : MentalHealthState :=
  { state with
    final_output := cap.writerOut state,
    messages := state.messages ++ [⟨roleWriter, cap.writerOut state⟩] }

/-- The three labels returned by `GraphBuilder.supervisor_routing`. -/
inductive Route where
  | ethical_pass : Route
  | ethical_fail : Route
  | max_retries : Route
deriving DecidableEq

/-- `GraphBuilder.supervisor_routing` (workflow.py lines 140-147). -/
def supervisor_routing (state : MentalHealthState) : Route :=
  if !state.ethical_check then
    if state.retry_count ≥ 3 then Route.max_retries
    else Route.ethical_fail
  else Route.ethical_pass

/-- `GraphBuilder.increment_retry_counter` (workflow.py lines 149-154):
a single-field update, no trace entry. -/
def increment_retry_counter (state : MentalHealthState) : MentalHealthState :=
  { state with retry_count := state.retry_count + 1 }

/-- `GraphBuilder.handle_max_retries` (workflow.py lines 156-161): set
`final_output` to the fixed apology text, no capability call, no trace
entry. -/
def handle_max_retries (state : MentalHealthState) : MentalHealthState :=
  { state with final_output := fallbackMessage }

/-- The named nodes of the compiled graph (`build_graph`, plus START/END
sentinels of the executor). -/
inductive Node where
  | START : Node
  | rewrite : Node
  | emotion_analysis : Node
  | cbt_agent : Node
  | resource_schedule : Node
  | ethical_guardian : Node
  | writer : Node
  | increment_retry : Node
  | max_retries_handler : Node
  | END : Node
deriving DecidableEq

/-- The conditional-edge table registered in `build_graph` for the
`ethical_guardian` node (workflow.py lines 187-195). -/
def routeTarget : Route → Node
  | Route.ethical_pass => Node.writer
  | Route.ethical_fail => Node.increment_retry
  | Route.max_retries => Node.max_retries_handler

/-- The node executed after `ethical_guardian` on a given state: the
routing function composed with the conditional-edge table. -/
def supervisorNext (state : MentalHealthState) : Node :=
  routeTarget (supervisor_routing state)

/-- The unconditional edges registered in `build_graph`
(workflow.py lines 180-200). -/
def forwardEdge : Node → Node
  | Node.START => Node.rewrite
  | Node.rewrite => Node.emotion_analysis
  | Node.emotion_analysis => Node.cbt_agent
  | Node.cbt_agent => Node.resource_schedule
  | Node.resource_schedule => Node.ethical_guardian
  | Node.ethical_guardian => Node.ethical_guardian
  | Node.writer => Node.END
  | Node.increment_retry => Node.cbt_agent
  | Node.max_retries_handler => Node.END
  | Node.END => Node.END

/-- The cyclic part of the compiled graph, entered at `cbt_agent`:
run `cbt_agent`, `resource_schedule`, `ethical_guardian` in sequence, then
branch on `supervisor_routing`; on `ethical_fail` increment the retry
counter and loop back to `cbt_agent`.  Terminates because the
`ethical_fail` route requires `retry_count < 3` and the increment node
raises it. -/
def cbtLoop (cap : Capability) (s : MentalHealthState) : Except String MentalHealthState :=
  match h1 : ethical_guardian_node cap (resource_schedule_node cap (cbt_agent_node cap s)) with
  | Except.error e => Except.error e
  | Except.ok s3 =>
    match h2 : supervisor_routing s3 with
    | Route.ethical_pass => Except.ok (writer_agent_node cap s3)
    | Route.max_retries => Except.ok (handle_max_retries s3)
    | Route.ethical_fail => cbtLoop cap (increment_retry_counter s3)
termination_by 4 - s.retry_count
decreasing_by
  have hretry : s3.retry_count = s.retry_count := by
    unfold ethical_guardian_node at h1
    split at h1
    · simp only [Except.ok.injEq] at h1
      subst h1
      rfl
    · cases h1
    · simp only [Except.ok.injEq] at h1
      subst h1
      rfl
  have hlt : s3.retry_count < 3 := by
    unfold supervisor_routing at h2
    split at h2
    · split at h2
      · cases h2
      · omega
    · cases h2
  have hinc : (increment_retry_counter s3).retry_count = s3.retry_count + 1 := rfl
  omega

/-- The full compiled graph walked from START: `rewrite`,
`emotion_analysis`, then the cyclic part. -/
def run_graph (cap : Capability) (s0 : MentalHealthState) : Except String MentalHealthState :=
  match emotion_analysis_node cap (rewrite_node cap s0) with
  | Except.error e => Except.error e
  | Except.ok s2 => cbtLoop cap s2

/-- Number of trace entries with a given role. -/
def countRole (r : String) (ms : List Msg) : Nat :=
  (ms.filter (fun m => m.role == r)).length

/-- Whether an execution completed without an uncaught exception. -/
def isOkRun (e : Except String MentalHealthState) : Bool :=
  match e with
  | Except.ok _ => true
  | Except.error _ => false

/-- The entry contract: all fields at defaults except `user_query`
(workflow.py lines 214-226). -/
def entryState (q : String) : MentalHealthState :=
  { user_query := q
    rewritten_query := ""
    emotion := ""
    cbt_response := ""
    schedule_recommendation := ""
    ethical_check := true
    ethical_feedback := ""
    final_output := ""
    messages := []
    retry_count := 0
    remaining_steps := 5 }

/- Concrete capability stubs and the states their runs pass through,
used for the executable test cases. -/

def qHappy : String := "I feel anxious about my exam"

def qReject : String := "I feel hopeless"

def stubRewrite : String := "rewritten query"

def stubEmotionRaw : String := "emotion analysis output"

def stubCbt : String := "cbt response"

def stubSchedule : String := "schedule recommendation"

def stubEthicalRaw : String := "ethical review output"

def stubWriter : String := "final formatted output"

def stubFeedbackOk : String := "ok"

def stubFeedbackBad : String := "rejected"

def jsonNull : String := "null"

/-- A stub capability whose ethical review passes immediately. -/
def happyCap : Capability :=
  { rewriteOut := fun _ => stubRewrite
    emotionOut := fun _ => stubEmotionRaw
    cbtOut := fun _ => stubCbt
    scheduleOut := fun _ => stubSchedule
    ethicalOut := fun _ => stubEthicalRaw
    writerOut := fun _ => stubWriter
    emotionParse := fun _ => ParseOutcome.object emoAnxiety
    ethicalParse := fun _ => ParseOutcome.object (true, stubFeedbackOk) }

/-- A stub capability whose ethical review rejects on every attempt. -/
def rejectCap : Capability :=
  { happyCap with ethicalParse := fun _ => ParseOutcome.object (false, stubFeedbackBad) }

/-- A stub capability whose writer produces the empty string. -/
def emptyWriterCap : Capability :=
  { happyCap with writerOut := fun _ => "" }

/-- A stub capability whose raw outputs are the five-character text
`null`: `json.loads` succeeds and returns the non-dict value `None`, so
the following `.get` raises `AttributeError`. -/
def nonObjectCap : Capability :=
  { happyCap with
    emotionOut := fun _ => jsonNull
    emotionParse := fun _ => ParseOutcome.nonObject
    ethicalOut := fun _ => jsonNull
    ethicalParse := fun _ => ParseOutcome.nonObject }

def mRewrite : Msg := ⟨roleRewrite, stubRewrite⟩

def mEmotion : Msg := ⟨roleEmotionAnalyst, stubEmotionRaw⟩

def mCbt : Msg := ⟨roleCbtAgent, stubCbt⟩

def mSchedule : Msg := ⟨roleResourceSchedule, stubSchedule⟩

def mEthical : Msg := ⟨roleEthicalGuardian, stubEthicalRaw⟩

def mWriter : Msg := ⟨roleWriter, stubWriter⟩

/-- The three trace entries appended by one pass through the retry cycle. -/
def loopCycle : List Msg := [mCbt, mSchedule, mEthical]

/-- The final state of the happy-path run of `happyCap` from
`entryState qHappy`. -/
def happyFinal : MentalHealthState :=
  { user_query := qHappy
    rewritten_query := stubRewrite
    emotion := emoAnxiety
    cbt_response := stubCbt
    schedule_recommendation := stubSchedule
    ethical_check := true
    ethical_feedback := stubFeedbackOk
    final_output := stubWriter
    messages := [mRewrite, mEmotion, mCbt, mSchedule, mEthical, mWriter]
    retry_count := 0
    remaining_steps := 5 }

/-- The state at the first entry of the retry cycle in the `rejectCap`
run (after `rewrite` and `emotion_analysis`). -/
def rejL0 : MentalHealthState :=
  { user_query := qReject
    rewritten_query := stubRewrite
    emotion := emoAnxiety
    cbt_response := ""
    schedule_recommendation := ""
    ethical_check := true
    ethical_feedback := ""
    final_output := ""
    messages := [mRewrite, mEmotion]
    retry_count := 0
    remaining_steps := 5 }

/-- The state at re-entry of the retry cycle in the `rejectCap` run after
`k` rejected attempts (`k` between 1 and 3). -/
def rejL (k : Nat) : MentalHealthState :=
  { rejL0 with
    cbt_response := stubCbt
    schedule_recommendation := stubSchedule
    ethical_check := false
    ethical_feedback := stubFeedbackBad
    messages := [mRewrite, mEmotion] ++ List.flatten (List.replicate k loopCycle)
    retry_count := k }

/-- The final state of the `rejectCap` run: four rejected attempts, then
the fallback terminal. -/
def rejFinal : MentalHealthState :=
  { rejL 3 with
    messages := [mRewrite, mEmotion] ++ List.flatten (List.replicate 4 loopCycle)
    final_output := fallbackMessage }

/-- The state after the ethical review of the `k+1`-st pass through the
retry cycle in the `rejectCap` run. -/
def rejS3 (k : Nat) : MentalHealthState :=
  { rejL k with
    messages := [mRewrite, mEmotion] ++ List.flatten (List.replicate (k + 1) loopCycle) }

/-- The state at entry of the retry cycle in the happy-path run (after
`rewrite` and `emotion_analysis`). -/
def happyL0 : MentalHealthState :=
  { rejL0 with user_query := qHappy }

/-- The state after the ethical review of the single pass through the
cycle in the happy-path run. -/
def happyS3 : MentalHealthState :=
  { happyL0 with
    cbt_response := stubCbt
    schedule_recommendation := stubSchedule
    ethical_check := true
    ethical_feedback := stubFeedbackOk
    messages := [mRewrite, mEmotion, mCbt, mSchedule, mEthical] }

/-- The state produced by running `emotion_analysis_node` with `happyCap`
directly on `entryState qHappy` (used to exercise the stage frame
conditions). -/
def emoAtEntry : MentalHealthState :=
  { entryState qHappy with
    emotion := emoAnxiety
    messages := [⟨roleEmotionAnalyst, stubEmotionRaw⟩] }

/-- The state produced by running `ethical_guardian_node` with `happyCap`
directly on `entryState qHappy`. -/
def ethAtEntry : MentalHealthState :=
  { entryState qHappy with
    ethical_check := true
    ethical_feedback := stubFeedbackOk
    messages := [⟨roleEthicalGuardian, stubEthicalRaw⟩] }

/- Concrete raw texts exercising the keyword heuristics. -/

def cBoth : String := "anxiety and depression"

def cSadText : String := "the person is dealing with depression and sadness"

def cNeutralText : String := "no markers at all"

def cHarm : String := "this could be harmful"

def cClean : String := "all good"

/-- A stub capability whose raw outputs fail `json.loads` with a decode
error, forcing both keyword heuristics. -/
def decodeCap : Capability :=
  { happyCap with
    emotionOut := fun _ => cSadText
    emotionParse := fun _ => ParseOutcome.decodeError
    ethicalOut := fun _ => cClean
    ethicalParse := fun _ => ParseOutcome.decodeError }

/-! ### Shape lemmas for the parsing nodes and the router -/

/-- Whenever `emotion_analysis_node` completes, it returns its input with
only `emotion` set and one trace entry appended. -/
theorem emotion_ok_shape (cap : Capability) (s t : MentalHealthState)
    (h : emotion_analysis_node cap s = Except.ok t) :
    ∃ v, t = { s with
      emotion := v,
      messages := s.messages ++ [⟨roleEmotionAnalyst, cap.emotionOut s⟩] } := by
  unfold emotion_analysis_node at h
  split at h
  · simp only [Except.ok.injEq] at h
    exact ⟨_, h.symm⟩
  · exact Except.noConfusion h
  · simp only [Except.ok.injEq] at h
    exact ⟨_, h.symm⟩

/-- Whenever `ethical_guardian_node` completes, it returns its input with
only `ethical_check`/`ethical_feedback` set and one trace entry appended. -/
theorem ethical_ok_shape (cap : Capability) (s t : MentalHealthState)
    (h : ethical_guardian_node cap s = Except.ok t) :
    ∃ b fb, t = { s with
      ethical_check := b,
      ethical_feedback := fb,
      messages := s.messages ++ [⟨roleEthicalGuardian, cap.ethicalOut s⟩] } := by
  unfold ethical_guardian_node at h
  split at h
  · simp only [Except.ok.injEq] at h
    exact ⟨_, _, h.symm⟩
  · exact Except.noConfusion h
  · simp only [Except.ok.injEq] at h
    exact ⟨_, _, h.symm⟩

/-- The router returns `ethical_pass` exactly when the ethical flag is set. -/
theorem routing_pass_iff (s : MentalHealthState) :
    supervisor_routing s = Route.ethical_pass ↔ s.ethical_check = true := by
  unfold supervisor_routing
  cases hc : s.ethical_check
  · by_cases hr : s.retry_count ≥ 3 <;> simp [hr]
  · simp

/-- The router returns `ethical_fail` exactly when the ethical flag is
clear and fewer than 3 retries have happened. -/
theorem routing_fail_iff (s : MentalHealthState) :
    supervisor_routing s = Route.ethical_fail ↔
      s.ethical_check = false ∧ s.retry_count < 3 := by
  unfold supervisor_routing
  cases hc : s.ethical_check
  · by_cases hr : s.retry_count ≥ 3 <;> simp [hr] <;> omega
  · simp

/-- The router returns `max_retries` exactly when the ethical flag is
clear and the retry counter has reached 3. -/
theorem routing_max_iff (s : MentalHealthState) :
    supervisor_routing s = Route.max_retries ↔
      s.ethical_check = false ∧ 3 ≤ s.retry_count := by
  unfold supervisor_routing
  cases hc : s.ethical_check
  · by_cases hr : s.retry_count ≥ 3 <;> simp [hr] <;> omega
  · simp

/-! ### Step equations for the loop -/

/-- If the ethical review raises, the loop aborts with that error. -/
theorem cbtLoop_step_error (cap : Capability) (s : MentalHealthState) (e : String)
    (h1 : ethical_guardian_node cap (resource_schedule_node cap (cbt_agent_node cap s)) =
      Except.error e) :
    cbtLoop cap s = Except.error e := by
  unfold cbtLoop
  split
  · next e' heq =>
      rw [h1] at heq
      injection heq with h
      rw [h]
  · next s3 heq =>
      rw [h1] at heq
      exact Except.noConfusion heq

/-- If the ethical review completes and routes `ethical_pass`, the loop
ends at the writer node. -/
theorem cbtLoop_step_pass (cap : Capability) (s s3 : MentalHealthState)
    (h1 : ethical_guardian_node cap (resource_schedule_node cap (cbt_agent_node cap s)) =
      Except.ok s3)
    (h2 : supervisor_routing s3 = Route.ethical_pass) :
    cbtLoop cap s = Except.ok (writer_agent_node cap s3) := by
  unfold cbtLoop
  split
  · next e' heq =>
      rw [h1] at heq
      exact Except.noConfusion heq
  · next s3' heq =>
      rw [h1] at heq
      injection heq with h
      subst h
      split
      · rfl
      · next hr => rw [h2] at hr; exact Route.noConfusion hr
      · next hr => rw [h2] at hr; exact Route.noConfusion hr

/-- If the ethical review completes and routes `max_retries`, the loop
ends at the fallback handler. -/
theorem cbtLoop_step_max (cap : Capability) (s s3 : MentalHealthState)
    (h1 : ethical_guardian_node cap (resource_schedule_node cap (cbt_agent_node cap s)) =
      Except.ok s3)
    (h2 : supervisor_routing s3 = Route.max_retries) :
    cbtLoop cap s = Except.ok (handle_max_retries s3) := by
  unfold cbtLoop
  split
  · next e' heq =>
      rw [h1] at heq
      exact Except.noConfusion heq
  · next s3' heq =>
      rw [h1] at heq
      injection heq with h
      subst h
      split
      · next hr => rw [h2] at hr; exact Route.noConfusion hr
      · rfl
      · next hr => rw [h2] at hr; exact Route.noConfusion hr

/-- If the ethical review completes and routes `ethical_fail`, the loop
increments the retry counter and re-enters at the CBT node. -/
theorem cbtLoop_step_fail (cap : Capability) (s s3 : MentalHealthState)
    (h1 : ethical_guardian_node cap (resource_schedule_node cap (cbt_agent_node cap s)) =
      Except.ok s3)
    (h2 : supervisor_routing s3 = Route.ethical_fail) :
    cbtLoop cap s = cbtLoop cap (increment_retry_counter s3) := by
  conv_lhs => unfold cbtLoop
  split
  · next e' heq =>
      rw [h1] at heq
      exact Except.noConfusion heq
  · next s3' heq =>
      rw [h1] at heq
      injection heq with h
      subst h
      split
      · next hr => rw [h2] at hr; exact Route.noConfusion hr
      · next hr => rw [h2] at hr; exact Route.noConfusion hr
      · rfl

/-! ### Trace counting -/

theorem countRole_append (r : String) (ms ns : List Msg) :
    countRole r (ms ++ ns) = countRole r ms + countRole r ns := by
  simp [countRole, List.filter_append]

theorem countRole_single (r : String) (m : Msg) :
    countRole r [m] = if m.role == r then 1 else 0 := by
  by_cases h : m.role == r <;> simp [countRole, List.filter, h]

/-! ### The loop invariants -/

/-- Master invariant of the retry cycle: when the loop completes from a
state `s`, (1) a retry counter at most 3 stays at most 3, (2) starting
below the ceiling, at most `4 - s.retry_count` further CBT invocations are
traced, and (3) a final state with the ethical flag set was produced by the
writer node. -/
theorem cbtLoop_ok_props :
    ∀ (n : Nat) (cap : Capability) (s t : MentalHealthState),
      4 - s.retry_count ≤ n → cbtLoop cap s = Except.ok t →
      ((s.retry_count ≤ 3 → t.retry_count ≤ 3) ∧
       (s.retry_count ≤ 3 →
         countRole roleCbtAgent t.messages ≤
           countRole roleCbtAgent s.messages + (4 - s.retry_count)) ∧
       (t.ethical_check = true → ∃ u, t = writer_agent_node cap u)) := by
  intro n
  induction n using Nat.strong_induction_on with
  | _ n ih =>
    intro cap s t hn hrun
    cases h1 : ethical_guardian_node cap (resource_schedule_node cap (cbt_agent_node cap s)) with
    | error e =>
        rw [cbtLoop_step_error cap s e h1] at hrun
        exact Except.noConfusion hrun
    | ok s3 =>
        obtain ⟨b, fb, hs3⟩ := ethical_ok_shape _ _ _ h1
        have hretry : s3.retry_count = s.retry_count := by rw [hs3]; rfl
        have e1 : (roleCbtAgent == roleCbtAgent) = true := by decide
        have e2 : (roleResourceSchedule == roleCbtAgent) = false := by decide
        have e3 : (roleEthicalGuardian == roleCbtAgent) = false := by decide
        have hcount : countRole roleCbtAgent s3.messages =
            countRole roleCbtAgent s.messages + 1 := by
          rw [hs3]
          show countRole roleCbtAgent
            (((s.messages ++ [⟨roleCbtAgent, _⟩]) ++ [⟨roleResourceSchedule, _⟩]) ++
              [⟨roleEthicalGuardian, _⟩]) = _
          rw [countRole_append, countRole_append, countRole_append,
            countRole_single, countRole_single, countRole_single]
          simp [e1, e2, e3]
        cases h2 : supervisor_routing s3 with
        | ethical_pass =>
            rw [cbtLoop_step_pass cap s s3 h1 h2] at hrun
            injection hrun with ht
            subst ht
            refine ⟨?_, ?_, fun _ => ⟨s3, rfl⟩⟩
            · intro hle
              show s3.retry_count ≤ 3
              omega
            · intro hle
              have e4 : (roleWriter == roleCbtAgent) = false := by decide
              show countRole roleCbtAgent
                (s3.messages ++ [⟨roleWriter, cap.writerOut s3⟩]) ≤ _
              rw [countRole_append, countRole_single, hcount]
              simp [e4]
              omega
        | max_retries =>
            rw [cbtLoop_step_max cap s s3 h1 h2] at hrun
            injection hrun with ht
            subst ht
            have hb : s3.ethical_check = false := ((routing_max_iff s3).mp h2).1
            refine ⟨?_, ?_, ?_⟩
            · intro hle
              show s3.retry_count ≤ 3
              omega
            · intro hle
              show countRole roleCbtAgent s3.messages ≤ _
              omega
            · intro hck
              have : s3.ethical_check = true := hck
              rw [hb] at this
              exact Bool.noConfusion this
        | ethical_fail =>
            rw [cbtLoop_step_fail cap s s3 h1 h2] at hrun
            obtain ⟨hb, hlt⟩ := (routing_fail_iff s3).mp h2
            have hinc : (increment_retry_counter s3).retry_count = s.retry_count + 1 := by
              show s3.retry_count + 1 = s.retry_count + 1
              omega
            have hmlt : 4 - (increment_retry_counter s3).retry_count < n := by omega
            obtain ⟨P1, P2, P3⟩ :=
              ih (4 - (increment_retry_counter s3).retry_count) hmlt cap
                (increment_retry_counter s3) t (Nat.le_refl _) hrun
            refine ⟨?_, ?_, P3⟩
            · intro hle
              exact P1 (by omega)
            · intro hle
              have hmsg : countRole roleCbtAgent (increment_retry_counter s3).messages =
                  countRole roleCbtAgent s.messages + 1 := by
                show countRole roleCbtAgent s3.messages = _
                omega
              have := P2 (by omega)
              rw [hmsg] at this
              omega

/-! ### The claims -/

/-- C2: at the routing decision after EthicalReview, `ethical_check = true`
sends control to the Writer; otherwise `retry_count >= 3` sends it to the
FallbackHandler; otherwise to IncrementRetry, whose outgoing edge returns
to the CBT agent.  The three guards are exhaustive (and mutually exclusive
by construction of the conditions). -/
theorem claim_C2 : ∀ s : MentalHealthState,
    (s.ethical_check = true → supervisorNext s = Node.writer) ∧
    (s.ethical_check = false → 3 ≤ s.retry_count →
      supervisorNext s = Node.max_retries_handler) ∧
    (s.ethical_check = false → s.retry_count < 3 →
      supervisorNext s = Node.increment_retry ∧
      forwardEdge Node.increment_retry = Node.cbt_agent) ∧
    (s.ethical_check = true ∨ (s.ethical_check = false ∧ 3 ≤ s.retry_count) ∨
      (s.ethical_check = false ∧ s.retry_count < 3)) := by
  intro s
  refine ⟨?_, ?_, ?_, ?_⟩
  · intro h
    unfold supervisorNext
    rw [(routing_pass_iff s).mpr h]
    rfl
  · intro h hr
    unfold supervisorNext
    rw [(routing_max_iff s).mpr ⟨h, hr⟩]
    rfl
  · intro h hr
    refine ⟨?_, rfl⟩
    unfold supervisorNext
    rw [(routing_fail_iff s).mpr ⟨h, hr⟩]
    rfl
  · cases hc : s.ethical_check
    · by_cases hr : 3 ≤ s.retry_count
      · exact Or.inr (Or.inl ⟨rfl, hr⟩)
      · exact Or.inr (Or.inr ⟨rfl, by omega⟩)
    · exact Or.inl rfl

/-- Witness for C2: the three routing outcomes at concrete states. -/
theorem claim_C2_witness :
    supervisorNext happyFinal = Node.writer ∧
    supervisorNext (rejL 3) = Node.max_retries_handler ∧
    supervisorNext (rejL 1) = Node.increment_retry := by
  refine ⟨(claim_C2 happyFinal).1 rfl,
    (claim_C2 (rejL 3)).2.1 rfl (by decide),
    ((claim_C2 (rejL 1)).2.2.1 rfl (by decide)).1⟩

/-- C6: the FallbackHandler sets `final_output` to the fixed apology text
and leaves every other field (including the trace) unchanged; it consults
no capability. -/
theorem claim_C6 : ∀ s : MentalHealthState,
    handle_max_retries s = { s with final_output := fallbackMessage } ∧
    (handle_max_retries s).user_query = s.user_query ∧
    (handle_max_retries s).rewritten_query = s.rewritten_query ∧
    (handle_max_retries s).emotion = s.emotion ∧
    (handle_max_retries s).cbt_response = s.cbt_response ∧
    (handle_max_retries s).schedule_recommendation = s.schedule_recommendation ∧
    (handle_max_retries s).ethical_check = s.ethical_check ∧
    (handle_max_retries s).ethical_feedback = s.ethical_feedback ∧
    (handle_max_retries s).final_output = fallbackMessage ∧
    (handle_max_retries s).messages = s.messages ∧
    (handle_max_retries s).retry_count = s.retry_count ∧
    (handle_max_retries s).remaining_steps = s.remaining_steps := by
  intro s
  exact ⟨rfl, rfl, rfl, rfl, rfl, rfl, rfl, rfl, rfl, rfl, rfl, rfl⟩

/-- C7: each node is exactly a record update of its owned fields.  The
Retry Controller is the single-field increment of `retry_count`; each of
the six stages sets only its owned field(s) and appends exactly one trace
entry, leaving every other field of the input state unchanged. -/
theorem claim_C7 : ∀ (cap : Capability) (s : MentalHealthState),
    increment_retry_counter s = { s with retry_count := s.retry_count + 1 } ∧
    rewrite_node cap s = { s with
      rewritten_query := cap.rewriteOut s,
      messages := s.messages ++ [⟨roleRewrite, cap.rewriteOut s⟩] } ∧
    (∀ t, emotion_analysis_node cap s = Except.ok t → ∃ v, t = { s with
      emotion := v,
      messages := s.messages ++ [⟨roleEmotionAnalyst, cap.emotionOut s⟩] }) ∧
    cbt_agent_node cap s = { s with
      cbt_response := cap.cbtOut s,
      messages := s.messages ++ [⟨roleCbtAgent, cap.cbtOut s⟩] } ∧
    resource_schedule_node cap s = { s with
      schedule_recommendation := cap.scheduleOut s,
      messages := s.messages ++ [⟨roleResourceSchedule, cap.scheduleOut s⟩] } ∧
    (∀ t, ethical_guardian_node cap s = Except.ok t → ∃ b fb, t = { s with
      ethical_check := b,
      ethical_feedback := fb,
      messages := s.messages ++ [⟨roleEthicalGuardian, cap.ethicalOut s⟩] }) ∧
    writer_agent_node cap s = { s with
      final_output := cap.writerOut s,
      messages := s.messages ++ [⟨roleWriter, cap.writerOut s⟩] } := by
  intro cap s
  exact ⟨rfl, rfl, fun t h => emotion_ok_shape cap s t h, rfl, rfl,
    fun t h => ethical_ok_shape cap s t h, rfl⟩

/-- Witness for C7: the frame conditions exercised at the entry state with
the happy-path stub, discharging both stage-completion hypotheses. -/
theorem claim_C7_witness :
    emoAtEntry.user_query = qHappy ∧
    ethAtEntry.user_query = qHappy ∧
    (increment_retry_counter (entryState qHappy)).retry_count = 1 := by
  obtain ⟨v, hv⟩ := ((claim_C7 happyCap (entryState qHappy)).2.2.1) emoAtEntry rfl
  obtain ⟨b, fb, hb⟩ := ((claim_C7 happyCap (entryState qHappy)).2.2.2.2.2.1) ethAtEntry rfl
  refine ⟨?_, ?_, ?_⟩
  · rw [hv]
    rfl
  · rw [hb]
    rfl
  · rw [(claim_C7 happyCap (entryState qHappy)).1]
    rfl

/-- C3 (amended): a `json.JSONDecodeError` from structured parsing is
absorbed by the keyword heuristic and the stage completes, as does a
successful dict parse; but if the raw text parses as valid JSON that is
not a dict (e.g. `null`), the subsequent `.get` raises an uncaught
`AttributeError` and the stage aborts. -/
theorem claim_C3 : ∀ (cap : Capability) (s : MentalHealthState),
    (cap.emotionParse (cap.emotionOut s) ≠ ParseOutcome.nonObject →
      isOkRun (emotion_analysis_node cap s) = true) ∧
    (cap.ethicalParse (cap.ethicalOut s) ≠ ParseOutcome.nonObject →
      isOkRun (ethical_guardian_node cap s) = true) := by
  intro cap s
  constructor
  · intro h
    cases hp : cap.emotionParse (cap.emotionOut s) with
    | decodeError => unfold emotion_analysis_node; rw [hp]; rfl
    | nonObject => exact absurd hp h
    | object v => unfold emotion_analysis_node; rw [hp]; rfl
  · intro h
    cases hp : cap.ethicalParse (cap.ethicalOut s) with
    | decodeError => unfold ethical_guardian_node; rw [hp]; rfl
    | nonObject => exact absurd hp h
    | object a => unfold ethical_guardian_node; rw [hp]; rfl

/-- Counterexample to C3 as stated: the raw capability output `null` is
valid JSON, so `json.loads` succeeds with the non-dict value `None`, and
the uncaught `.get` attribute access aborts both stages. -/
theorem claim_C3_counterexample :
    emotion_analysis_node nonObjectCap (entryState qHappy) = Except.error attrError ∧
    ethical_guardian_node nonObjectCap (entryState qHappy) = Except.error attrError :=
  ⟨rfl, rfl⟩

/-- Witness for C3 at the happy-path stub. -/
theorem claim_C3_witness :
    isOkRun (emotion_analysis_node happyCap (entryState qHappy)) = true ∧
    isOkRun (ethical_guardian_node happyCap (entryState qHappy)) = true :=
  ⟨(claim_C3 happyCap (entryState qHappy)).1 (by decide),
   (claim_C3 happyCap (entryState qHappy)).2 (by decide)⟩

/-- C4: on a decode error the EmotionAnalysis stage assigns
`emotionFallback` of the raw text, and the heuristic scans the markers in
the fixed priority order anxiety, depression/sad, anger/angry, fear/scared,
joy/happy, defaulting to neutral; the first match wins, so a text
containing both anxiety and depression resolves to anxiety. -/
theorem claim_C4 : ∀ (cap : Capability) (s : MentalHealthState) (c : String),
    (cap.emotionParse (cap.emotionOut s) = ParseOutcome.decodeError →
      emotion_analysis_node cap s = Except.ok { s with
        emotion := emotionFallback (cap.emotionOut s),
        messages := s.messages ++ [⟨roleEmotionAnalyst, cap.emotionOut s⟩] }) ∧
    (containsLower c kwAnxiety = true → emotionFallback c = emoAnxiety) ∧
    (containsLower c kwAnxiety = false →
      (containsLower c kwDepression || containsLower c kwSad) = true →
      emotionFallback c = emoSadness) ∧
    (containsLower c kwAnxiety = false →
      (containsLower c kwDepression || containsLower c kwSad) = false →
      (containsLower c kwAnger || containsLower c kwAngry) = true →
      emotionFallback c = emoAnger) ∧
    (containsLower c kwAnxiety = false →
      (containsLower c kwDepression || containsLower c kwSad) = false →
      (containsLower c kwAnger || containsLower c kwAngry) = false →
      (containsLower c kwFear || containsLower c kwScared) = true →
      emotionFallback c = emoFear) ∧
    (containsLower c kwAnxiety = false →
      (containsLower c kwDepression || containsLower c kwSad) = false →
      (containsLower c kwAnger || containsLower c kwAngry) = false →
      (containsLower c kwFear || containsLower c kwScared) = false →
      (containsLower c kwJoy || containsLower c kwHappy) = true →
      emotionFallback c = emoJoy) ∧
    (containsLower c kwAnxiety = false →
      (containsLower c kwDepression || containsLower c kwSad) = false →
      (containsLower c kwAnger || containsLower c kwAngry) = false →
      (containsLower c kwFear || containsLower c kwScared) = false →
      (containsLower c kwJoy || containsLower c kwHappy) = false →
      emotionFallback c = emoNeutral) ∧
    (containsLower c kwAnxiety = true → containsLower c kwDepression = true →
      emotionFallback c = emoAnxiety) := by
  intro cap s c
  refine ⟨?_, ?_, ?_, ?_, ?_, ?_, ?_, ?_⟩
  · intro h
    unfold emotion_analysis_node
    rw [h]
  · intro h1
    simp [emotionFallback, h1]
  · intro h1 h2
    simp [emotionFallback, h1, h2]
  · intro h1 h2 h3
    simp [emotionFallback, h1, h2, h3]
  · intro h1 h2 h3 h4
    simp [emotionFallback, h1, h2, h3, h4]
  · intro h1 h2 h3 h4 h5
    simp [emotionFallback, h1, h2, h3, h4, h5]
  · intro h1 h2 h3 h4 h5
    simp [emotionFallback, h1, h2, h3, h4, h5]
  · intro h1 _
    simp [emotionFallback, h1]

/-- Witness for C4: the heuristic on concrete texts, including the
anxiety/depression tie, and the decode-error branch of the stage itself. -/
theorem claim_C4_witness :
    emotionFallback cBoth = emoAnxiety ∧
    emotionFallback cSadText = emoSadness ∧
    emotionFallback cNeutralText = emoNeutral ∧
    emotion_analysis_node decodeCap (entryState qHappy) = Except.ok
      { entryState qHappy with
        emotion := emoSadness,
        messages := [⟨roleEmotionAnalyst, cSadText⟩] } :=
  ⟨(claim_C4 happyCap (entryState qHappy) cBoth).2.2.2.2.2.2.2 (by decide) (by decide),
   (claim_C4 happyCap (entryState qHappy) cSadText).2.2.1 (by decide) (by decide),
   (claim_C4 happyCap (entryState qHappy) cNeutralText).2.2.2.2.2.2.1
     (by decide) (by decide) (by decide) (by decide) (by decide),
   (claim_C4 decodeCap (entryState qHappy) cSadText).1 rfl⟩

/-- C5: on a decode error the EthicalReview stage applies
`ethicalFallback`, which reports concerns (check false) exactly when one
of the four concern words occurs case-insensitively in the raw text, and
otherwise reports a completed review (check true). -/
theorem claim_C5 : ∀ (cap : Capability) (s : MentalHealthState) (c : String),
    (cap.ethicalParse (cap.ethicalOut s) = ParseOutcome.decodeError →
      ethical_guardian_node cap s = Except.ok { s with
        ethical_check := (ethicalFallback (cap.ethicalOut s)).1,
        ethical_feedback := (ethicalFallback (cap.ethicalOut s)).2,
        messages := s.messages ++ [⟨roleEthicalGuardian, cap.ethicalOut s⟩] }) ∧
    (ethicalFallback c = (false, fbConcerns) ↔
      (containsLower c kwHarmful || containsLower c kwInappropriate ||
       containsLower c kwUnethical || containsLower c kwDangerous) = true) ∧
    ((containsLower c kwHarmful || containsLower c kwInappropriate ||
      containsLower c kwUnethical || containsLower c kwDangerous) = false →
      ethicalFallback c = (true, fbCompleted)) := by
  intro cap s c
  refine ⟨?_, ?_, ?_⟩
  · intro h
    unfold ethical_guardian_node
    rw [h]
  · cases hb : (containsLower c kwHarmful || containsLower c kwInappropriate ||
      containsLower c kwUnethical || containsLower c kwDangerous)
    · simp [ethicalFallback, hb, fbConcerns, fbCompleted]
    · simp [ethicalFallback, hb]
  · intro h
    simp [ethicalFallback, h]

/-- Witness for C5: the heuristic on a concerning and a clean text, and
the decode-error branch of the stage itself. -/
theorem claim_C5_witness :
    ethicalFallback cHarm = (false, fbConcerns) ∧
    ethicalFallback cClean = (true, fbCompleted) ∧
    ethical_guardian_node decodeCap (entryState qHappy) = Except.ok
      { entryState qHappy with
        ethical_check := true,
        ethical_feedback := fbCompleted,
        messages := [⟨roleEthicalGuardian, cClean⟩] } :=
  ⟨((claim_C5 happyCap (entryState qHappy) cHarm).2.1).mpr (by decide),
   (claim_C5 happyCap (entryState qHappy) cClean).2.2 (by decide),
   (claim_C5 decodeCap (entryState qHappy) cClean).1 rfl⟩

/-! ### Concrete runs -/

/-- The happy-path run, computed end to end. -/
theorem happy_run : run_graph happyCap (entryState qHappy) = Except.ok happyFinal := by
  have h0 : run_graph happyCap (entryState qHappy) = cbtLoop happyCap happyL0 := rfl
  have h1 := cbtLoop_step_pass happyCap happyL0 happyS3 rfl rfl
  rw [h0, h1]
  rfl

/-- The always-rejecting run, computed end to end: three failed retries,
then the fallback terminal. -/
theorem reject_run : run_graph rejectCap (entryState qReject) = Except.ok rejFinal := by
  have h1 := cbtLoop_step_fail rejectCap rejL0 (rejS3 0) rfl rfl
  have h2 := cbtLoop_step_fail rejectCap (rejL 1) (rejS3 1) rfl rfl
  have h3 := cbtLoop_step_fail rejectCap (rejL 2) (rejS3 2) rfl rfl
  have h4 := cbtLoop_step_max rejectCap (rejL 3) (rejS3 3) rfl rfl
  calc run_graph rejectCap (entryState qReject)
      = cbtLoop rejectCap rejL0 := rfl
    _ = cbtLoop rejectCap (increment_retry_counter (rejS3 0)) := h1
    _ = cbtLoop rejectCap (rejL 1) := rfl
    _ = cbtLoop rejectCap (increment_retry_counter (rejS3 1)) := h2
    _ = cbtLoop rejectCap (rejL 2) := rfl
    _ = cbtLoop rejectCap (increment_retry_counter (rejS3 2)) := h3
    _ = cbtLoop rejectCap (rejL 3) := rfl
    _ = Except.ok (handle_max_retries (rejS3 3)) := h4
    _ = Except.ok rejFinal := rfl

/-- C1 (amended): for every capability behaviour under which the execution
completes — i.e. reaches a terminal node instead of aborting on an uncaught
`AttributeError` from a non-dict JSON parse — a run from an entry state
with `retry_count = 0` traces at most 4 CBT invocations (the initial
attempt plus at most 3 retries); and the always-rejecting capability
terminates at the FallbackHandler with `retry_count = 3`, the fixed
fallback text, and exactly 4 CBT invocations.  (The unamended universal
"every behaviour reaches a terminal node" fails: see the counterexample.) -/
theorem claim_C1 :
    (∀ (cap : Capability) (s0 t : MentalHealthState),
      s0.retry_count = 0 → run_graph cap s0 = Except.ok t →
      countRole roleCbtAgent t.messages ≤ countRole roleCbtAgent s0.messages + 4) ∧
    (run_graph rejectCap (entryState qReject)).map
        (fun t => (t.retry_count, t.final_output, countRole roleCbtAgent t.messages)) =
      Except.ok (3, fallbackMessage, 4) := by
  constructor
  · intro cap s0 t h0 hrun
    unfold run_graph at hrun
    cases hE : emotion_analysis_node cap (rewrite_node cap s0) with
    | error e =>
        rw [hE] at hrun
        exact Except.noConfusion (hrun : Except.error e = Except.ok t)
    | ok s2 =>
        rw [hE] at hrun
        replace hrun : cbtLoop cap s2 = Except.ok t := hrun
        obtain ⟨v, hs2⟩ := emotion_ok_shape _ _ _ hE
        have hr2 : s2.retry_count = s0.retry_count := by rw [hs2]; rfl
        have hc2 : countRole roleCbtAgent s2.messages =
            countRole roleCbtAgent s0.messages := by
          have e1 : (roleRewrite == roleCbtAgent) = false := by decide
          have e2 : (roleEmotionAnalyst == roleCbtAgent) = false := by decide
          rw [hs2]
          show countRole roleCbtAgent
            ((s0.messages ++ [⟨roleRewrite, _⟩]) ++ [⟨roleEmotionAnalyst, _⟩]) = _
          rw [countRole_append, countRole_append, countRole_single, countRole_single]
          simp [e1, e2]
        obtain ⟨-, P2, -⟩ :=
          cbtLoop_ok_props (4 - s2.retry_count) cap s2 t (Nat.le_refl _) hrun
        have := P2 (by omega)
        rw [hc2] at this
        omega
  · rw [reject_run]
    rfl

/-- Counterexample to C1 as stated: not every capability behaviour reaches
a terminal node.  Under the capability whose raw outputs are the text
`null` (valid JSON parsing to the non-dict `None`), the executor aborts
with the uncaught `AttributeError` and reaches neither Writer nor
FallbackHandler. -/
theorem claim_C1_counterexample :
    run_graph nonObjectCap (entryState qHappy) = Except.error attrError := rfl

/-- Witness for C1: the bound exercised on the happy-path run. -/
theorem claim_C1_witness :
    countRole roleCbtAgent happyFinal.messages ≤
      countRole roleCbtAgent (entryState qHappy).messages + 4 :=
  claim_C1.1 happyCap (entryState qHappy) happyFinal rfl happy_run

/-- C8: with the immediately-passing stub, the run from the entry state
produces exactly 6 trace entries whose roles are, in order, rewrite,
emotion_analyst, cbt_agent, resource_schedule, ethical_guardian, writer,
and a non-empty final output. -/
theorem claim_C8 :
    (run_graph happyCap (entryState qHappy)).map
        (fun t => t.messages.map (fun m => m.role)) =
      Except.ok [roleRewrite, roleEmotionAnalyst, roleCbtAgent,
        roleResourceSchedule, roleEthicalGuardian, roleWriter] ∧
    (run_graph happyCap (entryState qHappy)).map
        (fun t => (t.messages.length, t.final_output)) =
      Except.ok (6, stubWriter) := by
  rw [happy_run]
  exact ⟨rfl, rfl⟩

/-- C9 (amended): when the writer capability never returns empty text, an
execution that terminates through the Writer path (equivalently, with the
ethical flag set) has non-empty `final_output`; the code itself copies the
writer output verbatim, so an empty writer output yields an empty
`final_output` on the success path. -/
theorem claim_C9 : ∀ (cap : Capability) (s0 t : MentalHealthState),
    (∀ u, cap.writerOut u ≠ "") → run_graph cap s0 = Except.ok t →
    t.ethical_check = true → t.final_output ≠ "" := by
  intro cap s0 t hw hrun hck
  unfold run_graph at hrun
  cases hE : emotion_analysis_node cap (rewrite_node cap s0) with
  | error e =>
      rw [hE] at hrun
      exact Except.noConfusion (hrun : Except.error e = Except.ok t)
  | ok s2 =>
      rw [hE] at hrun
      replace hrun : cbtLoop cap s2 = Except.ok t := hrun
      obtain ⟨-, -, P3⟩ :=
        cbtLoop_ok_props (4 - s2.retry_count) cap s2 t (Nat.le_refl _) hrun
      obtain ⟨u, hu⟩ := P3 hck
      rw [hu]
      show cap.writerOut u ≠ ""
      exact hw u

/-- Counterexample to C9 as stated: a capability whose writer returns the
empty string drives the success terminal to an empty `final_output`. -/
theorem claim_C9_counterexample :
    (run_graph emptyWriterCap (entryState qHappy)).map
        (fun t => (t.ethical_check, t.final_output)) =
      Except.ok (true, "") := by
  have h0 : run_graph emptyWriterCap (entryState qHappy) =
      cbtLoop emptyWriterCap happyL0 := rfl
  have h1 := cbtLoop_step_pass emptyWriterCap happyL0 happyS3 rfl rfl
  rw [h0, h1]
  rfl

/-- Witness for C9 on the happy-path run. -/
theorem claim_C9_witness : happyFinal.final_output ≠ "" :=
  claim_C9 happyCap (entryState qHappy) happyFinal
    (fun u => by show stubWriter ≠ ""; decide) happy_run rfl

/-- C10: the retry counter never exceeds 3 from an entry state: the router
emits `ethical_fail` (the only route to the increment node) only below the
ceiling, no other node writes `retry_count`, and hence every completed run
from `retry_count = 0` ends with `retry_count ≤ 3`. -/
theorem claim_C10 :
    (∀ s : MentalHealthState,
      supervisor_routing s = Route.ethical_fail → s.retry_count < 3) ∧
    (∀ (cap : Capability) (s : MentalHealthState),
      (rewrite_node cap s).retry_count = s.retry_count ∧
      (cbt_agent_node cap s).retry_count = s.retry_count ∧
      (resource_schedule_node cap s).retry_count = s.retry_count ∧
      (writer_agent_node cap s).retry_count = s.retry_count ∧
      (handle_max_retries s).retry_count = s.retry_count ∧
      (∀ t, emotion_analysis_node cap s = Except.ok t → t.retry_count = s.retry_count) ∧
      (∀ t, ethical_guardian_node cap s = Except.ok t → t.retry_count = s.retry_count)) ∧
    (∀ (cap : Capability) (s0 t : MentalHealthState),
      s0.retry_count = 0 → run_graph cap s0 = Except.ok t → t.retry_count ≤ 3) := by
  refine ⟨?_, ?_, ?_⟩
  · intro s h
    exact ((routing_fail_iff s).mp h).2
  · intro cap s
    refine ⟨rfl, rfl, rfl, rfl, rfl, ?_, ?_⟩
    · intro t ht
      obtain ⟨v, hv⟩ := emotion_ok_shape _ _ _ ht
      rw [hv]
    · intro t ht
      obtain ⟨b, fb, hb⟩ := ethical_ok_shape _ _ _ ht
      rw [hb]
  · intro cap s0 t h0 hrun
    unfold run_graph at hrun
    cases hE : emotion_analysis_node cap (rewrite_node cap s0) with
    | error e =>
        rw [hE] at hrun
        exact Except.noConfusion (hrun : Except.error e = Except.ok t)
    | ok s2 =>
        rw [hE] at hrun
        replace hrun : cbtLoop cap s2 = Except.ok t := hrun
        obtain ⟨v, hs2⟩ := emotion_ok_shape _ _ _ hE
        have hr2 : s2.retry_count = s0.retry_count := by rw [hs2]; rfl
        obtain ⟨P1, -, -⟩ :=
          cbtLoop_ok_props (4 - s2.retry_count) cap s2 t (Nat.le_refl _) hrun
        exact P1 (by omega)

/-- Witness for C10: the invariant exercised on the always-rejecting run
and the router guard at a concrete under-limit state. -/
theorem claim_C10_witness :
    rejFinal.retry_count ≤ 3 ∧ (rejL 1).retry_count < 3 :=
  ⟨claim_C10.2.2 rejectCap (entryState qReject) rejFinal rfl reject_run,
   claim_C10.1 (rejL 1) (by decide)⟩

end MindMate
